import Mathlib

/-!
Verification of the VoiceGenie real-time conversational session engine.

Shallow embedding of:
  - backend/internal/middleware/ratelimit.go (token-bucket rate limiter and
    the rate-limiting middleware rejection responses),
  - backend/internal/handlers/chat.go (conversation resolution, message
    persistence, context-window construction, the single-shot, push-stream
    and WebSocket exchange pipelines, usage recording).

Modelling conventions: Go time instants and durations are nanosecond counts
(Nat); Go `int` is Int where sign matters (bucket token counts) and Nat where
the source only ever holds non-negative values; the persistence store is a pure
state record (lists in insertion order, which coincides with `created_at ASC`
order); the generation collaborator is a function parameter returning
`Except Unit OpenAIResponse` so that both the success and the failure behavior
of the provider can be analysed.
-/

namespace VoiceGenie

/-! ## Token-bucket rate limiter (ratelimit.go) -/

/-- State of one token bucket, mirroring the Go struct `RateLimiter`
(tokens, maxTokens, refillRate, lastRefill); the mutex is concurrency
plumbing and has no sequential content. -/
structure RateLimiter where
  tokens : Int
  maxTokens : Int
  refillRate : Nat
  lastRefill : Nat
  deriving DecidableEq, Repr

/-- Go `NewRateLimiter(maxTokens, refillRate)`: a full bucket whose
last-refill instant is the creation time. -/
def NewRateLimiter (maxTokens : Int) (refillRate : Nat) (now : Nat) : RateLimiter :=
  { tokens := maxTokens
    maxTokens := maxTokens
    refillRate := refillRate
    lastRefill := now }

/-- Go `(*RateLimiter).Allow()`: refill `floor(elapsed / refillRate)` tokens
capped at `maxTokens` (updating `lastRefill` only when at least one token was
added), then take one token if available. The current instant is passed
explicitly in place of `time.Now()`. -/
def RateLimiter.Allow (rl : RateLimiter) (now : Nat) : Bool × RateLimiter :=
  let elapsed : Nat := now - rl.lastRefill
  let tokensToAdd : Int := (elapsed / rl.refillRate : Nat)
  let rl' : RateLimiter :=
    if tokensToAdd > 0 then
      { rl with tokens := min rl.maxTokens (rl.tokens + tokensToAdd), lastRefill := now }
    else rl
  if rl'.tokens > 0 then (true, { rl' with tokens := rl'.tokens - 1 }) else (false, rl')

/-- Run a sequence of `Allow` calls at the given instants, collecting the
results and threading the bucket state. -/
def allowCalls (rl : RateLimiter) (ts : List Nat) : List Bool × RateLimiter :=
  match ts with
  | [] => ([], rl)
  | t :: rest =>
    let r := rl.Allow t
    let rs := allowCalls r.2 rest
    (r.1 :: rs.1, rs.2)

/-- Configuration record for the coarse middleware policy, mirroring
`config.RateLimitConfig` (window duration in nanoseconds). -/
structure RateLimitConfig where
  maxRequests : Nat
  windowDuration : Nat
  deriving DecidableEq, Repr

/-- The fields of a 429 rejection JSON body that the claims mention: the
error code and the `retry_after` hint in seconds (plus, when the body carries
them, the limit and window label). -/
structure RejectionBody where
  code : Nat
  limit : Option Nat
  window : Option String
  retryAfter : Nat
  deriving DecidableEq, Repr

/-- Rejection body of the coarse `RateLimit` middleware: code 42900 and
`retry_after = int(config.WindowDuration / time.Second)`. -/
def rateLimitRejection (cfg : RateLimitConfig) : RejectionBody :=
  { code := 42900, limit := none, window := none,
    retryAfter := cfg.windowDuration / 1000000000 }

/-- Rejection body of `APIRateLimit`: code 42900, window "1 minute",
`retry_after` 60. -/
def apiRateLimitRejection (requestsPerMinute : Nat) : RejectionBody :=
  { code := 42900, limit := some requestsPerMinute, window := some "1 minute",
    retryAfter := 60 }

/-- Rejection body of `UserRateLimit`: code 42901, window "1 hour",
`retry_after` 3600. -/
def userRateLimitRejection (requestsPerHour : Nat) : RejectionBody :=
  { code := 42901, limit := some requestsPerHour, window := some "1 hour",
    retryAfter := 3600 }

/-- Rejection body of `ExpensiveOperationLimit`: code 42902, window
"1 minute", `retry_after` 60 (a hard-coded constant in the source). -/
def expensiveOperationRejection (requestsPerMinute : Nat) : RejectionBody :=
  { code := 42902, limit := some requestsPerMinute, window := some "1 minute",
    retryAfter := 60 }

/-- Refill interval, in nanoseconds, of the bucket that
`ExpensiveOperationLimit(requestsPerMinute)` creates:
`time.Minute / time.Duration(requestsPerMinute)`. -/
def expensiveOperationRefillInterval (requestsPerMinute : Nat) : Nat :=
  60000000000 / requestsPerMinute

/-! ## Chat data model (chat.go and the persistence collaborator) -/

/-- A persisted conversation row: the fields of `database.Conversation` that
chat.go reads or writes. Temperature is an exact rational, standing for the
Go float32 literal 0.7 on which no arithmetic is ever performed. -/
structure Conversation where
  id : Nat
  userID : Nat
  title : String
  status : String
  model : String
  temperature : Rat
  lastMessage : String := ""
  messageCount : Nat := 0
  deriving DecidableEq, Repr

/-- A persisted message row: the fields of `database.Message` that chat.go
reads or writes. Creation order is the position in the state list, which
models `created_at` ascending order. -/
structure Message where
  id : Nat
  userID : Nat
  conversationID : Nat
  type : String
  content : String
  contentType : String
  status : String
  model : String := ""
  tokensUsed : Nat := 0
  audioURL : String := ""
  deriving DecidableEq, Repr

/-- A usage-accounting row: the fields of `database.Usage` that
`recordChatUsage` writes (the date bucket is time plumbing and is omitted). -/
structure Usage where
  userID : Nat
  service : String
  operation : String
  model : String
  tokensUsed : Nat
  requests : Nat
  deriving DecidableEq, Repr

/-- The persistence store: conversations, messages and usage rows in
insertion order, plus fresh-id counters for the auto-increment keys. -/
structure ChatState where
  convs : List Conversation
  messages : List Message
  usages : List Usage
  nextConvID : Nat
  nextMsgID : Nat
  deriving DecidableEq, Repr

/-- A role/content pair in provider format, mirroring `OpenAIMessage`. -/
structure OpenAIMessage where
  role : String
  content : String
  deriving DecidableEq, Repr

/-- One completion choice of a provider response (`OpenAIResponse.Choices`
element, with its nested message flattened). -/
structure OpenAIChoice where
  index : Nat
  role : String
  content : String
  finishReason : String
  deriving DecidableEq, Repr

/-- The usage block of a provider response. -/
structure OpenAIUsage where
  promptTokens : Nat
  completionTokens : Nat
  totalTokens : Nat
  deriving DecidableEq, Repr

/-- A provider response, mirroring `OpenAIResponse` (id, object and created
fields are identification plumbing the engine never branches on). -/
structure OpenAIResponse where
  model : String
  choices : List OpenAIChoice
  usage : OpenAIUsage
  deriving DecidableEq, Repr

/-- Content of the first choice, as the Go code accesses
`aiResponse.Choices[0].Message.Content` (Go would panic on an empty choice
list; the default keeps the embedding total, and every response built in this
development has exactly one choice). -/
def OpenAIResponse.firstContent (r : OpenAIResponse) : String :=
  (r.choices.headD { index := 0, role := "", content := "", finishReason := "" }).content

/-- An inbound exchange request, mirroring `ChatRequest`; an absent
conversation id stands for the empty string. -/
structure ChatRequest where
  message : String
  conversationID : Option Nat
  model : String := ""
  temperature : Rat := 0
  maxTokens : Nat := 0
  deriving DecidableEq, Repr

/-- A successful exchange result, mirroring `ChatResponse`. -/
structure ChatResponse where
  reply : String
  conversationID : Nat
  audioURL : String := ""
  suggestions : List String := []
  tokensUsed : Nat := 0
  model : String := ""
  deriving DecidableEq, Repr

/-- Outcome of the single-shot HTTP handler: either a success payload or the
numeric error code of the JSON error response it writes. -/
inductive ChatOutcome where
  | ok (resp : ChatResponse)
  | httpError (code : Nat)
  deriving DecidableEq, Repr

/-- The AI section of the configuration that chat.go reads
(`config.AI.MaxMessageLength`, `config.AI.AutoTTS`). -/
structure AIConfig where
  maxMessageLength : Nat
  autoTTS : Bool
  deriving DecidableEq, Repr

/-- The generation collaborator: given the context window and the request,
return a provider response or fail (timeout, quota, transport). -/
def GenerationCollaborator : Type :=
  List OpenAIMessage → ChatRequest → Except Unit OpenAIResponse

/-- Go `getOrCreateConversation` when no id was supplied, and the fall-through
of the supplied-id branch: create a fresh conversation owned by the caller
with the default parameters (title 新对话, status active, model gpt-3.5-turbo,
temperature 0.7) and append it to the store. -/
def createConversation (st : ChatState) (uid : Nat) : Conversation × ChatState :=
  let c : Conversation :=
    { id := st.nextConvID, userID := uid, title := "新对话", status := "active",
      model := "gpt-3.5-turbo", temperature := 7/10 }
  (c, { st with convs := st.convs ++ [c], nextConvID := st.nextConvID + 1 })

/-- Go `getOrCreateConversation(userID, conversationID)`: when an id is given,
look the conversation up by id and owner; on a hit return it, otherwise (and
when no id is given) create a new conversation. -/
def getOrCreateConversation (st : ChatState) (uid : Nat) (conversationID : Option Nat) :
    Conversation × ChatState :=
  match conversationID with
  | some cid =>
    match st.convs.find? (fun c => c.id == cid && c.userID == uid) with
    | some c => (c, st)
    | none => createConversation st uid
  | none => createConversation st uid

/-- Go `saveUserMessage`: append a user-typed message with status sent. -/
def saveUserMessage (st : ChatState) (conversationID uid : Nat) (content : String) :
    Message × ChatState :=
  let m : Message :=
    { id := st.nextMsgID, userID := uid, conversationID := conversationID,
      type := "user", content := content, contentType := "text", status := "sent" }
  (m, { st with messages := st.messages ++ [m], nextMsgID := st.nextMsgID + 1 })

/-- Go `saveAIMessage`: append an ai-typed message with status sent, tagged
with the model name and the token count. -/
def saveAIMessage (st : ChatState) (conversationID uid : Nat)
    (content model : String) (tokensUsed : Nat) : Message × ChatState :=
  let m : Message :=
    { id := st.nextMsgID, userID := uid, conversationID := conversationID,
      type := "ai", content := content, contentType := "text", status := "sent",
      model := model, tokensUsed := tokensUsed }
  (m, { st with messages := st.messages ++ [m], nextMsgID := st.nextMsgID + 1 })

/-- Role/content projection of one stored message as the loop body of
`getConversationMessages` performs it: user/ai-typed messages are kept (the
ai type becoming the assistant role), every other type is dropped. -/
def msgToOpenAI (m : Message) : Option OpenAIMessage :=
  if m.type == "user" || m.type == "ai" then
    some { role := if m.type == "ai" then "assistant" else "user", content := m.content }
  else none

/-- Go `getConversationMessages`: query the messages of the conversation
ordered by `created_at ASC` with `LIMIT 20` (the first twenty in creation
order), then project user/ai-typed rows to role/content pairs. -/
def getConversationMessages (st : ChatState) (conversationID : Nat) : List OpenAIMessage :=
  let msgs := (st.messages.filter (fun m => m.conversationID == conversationID)).take 20
  msgs.filterMap msgToOpenAI

/-- Context window as the specification words it: the most recent twenty
persisted messages of the conversation ordered oldest-to-newest, filtered to
user/assistant roles and returned as role/content pairs. Second definition
kept deliberately close to the spec text, for comparison with the source
function above. -/
def getConversationMessagesPerSpec (st : ChatState) (conversationID : Nat) :
    List OpenAIMessage :=
  let msgs := st.messages.filter (fun m => m.conversationID == conversationID)
  let window := msgs.drop (msgs.length - 20)
  window.filterMap msgToOpenAI

/-- Go `updateConversation`: update the stored row of the conversation with
the last message text and `message_count = conversation.MessageCount + 2`
(computed from the in-memory struct). -/
def updateConversation (st : ChatState) (conversation : Conversation)
    (lastMessage : String) : ChatState :=
  { st with
    convs := st.convs.map (fun c =>
      if c.id == conversation.id then
        { c with lastMessage := lastMessage,
                 messageCount := conversation.messageCount + 2 }
      else c) }

/-- Go `generateSuggestions`: the source returns a fixed default list. -/
def generateSuggestions (_lastMessage : String) : List String :=
  ["请继续解释", "能举个例子吗？", "还有其他观点吗？"]

/-- Go `recordChatUsage`: append one usage row for the caller with service
openai, operation chat, the request model and the provider-reported total
token count. -/
def recordChatUsage (st : ChatState) (uid : Nat) (req : ChatRequest)
    (response : OpenAIResponse) : ChatState :=
  { st with usages := st.usages ++
      [{ userID := uid, service := "openai", operation := "chat", model := req.model,
         tokensUsed := response.usage.totalTokens, requests := 1 }] }

/-- Go `db.Model(&aiMessage).Update("audio_url", url)`: set the audio URL of
the stored message row with the given id. -/
def setMessageAudioURL (st : ChatState) (messageID : Nat) (url : String) : ChatState :=
  { st with messages := st.messages.map (fun m =>
      if m.id == messageID then { m with audioURL := url } else m) }

/-- Default model applied by the handlers when the request leaves it empty. -/
def withDefaultModel (req : ChatRequest) : ChatRequest :=
  if req.model == "" then { req with model := "gpt-3.5-turbo" } else req

/-- Default temperature applied by the handlers when the request leaves it
zero. -/
def withDefaultTemperature (req : ChatRequest) : ChatRequest :=
  if req.temperature = 0 then { req with temperature := 7/10 } else req

/-- Default max-tokens applied only by the single-shot handler. -/
def withDefaultMaxTokens (req : ChatRequest) : ChatRequest :=
  if req.maxTokens = 0 then { req with maxTokens := 1000 } else req

/-- Go `SendChatMessage` (the single-shot HTTP handler), with the request
decoding, the gin context and the logger abstracted away: authentication
check, message-length validation, conversation resolution, user-turn
persistence, context construction, parameter defaults, generation call,
assistant-turn persistence, conversation-summary update, optional TTS
attachment, suggestions, usage recording, response. The generation
collaborator and the TTS audio URL (what `performTTS` would return) are
parameters. -/
def SendChatMessage (cfg : AIConfig) (callOpenAI : GenerationCollaborator)
    (ttsAudioURL : Option String) (st : ChatState) (userID : Option Nat)
    (req : ChatRequest) : ChatOutcome × ChatState :=
  match userID with
  | none => (.httpError 40100, st)
  | some uid =>
    if req.message.utf8ByteSize > cfg.maxMessageLength then
      (.httpError 40001, st)
    else
      let r₁ := getOrCreateConversation st uid req.conversationID
      let conversation := r₁.1
      let r₂ := saveUserMessage r₁.2 conversation.id uid req.message
      let st₂ := r₂.2
      let messages := getConversationMessages st₂ conversation.id
      let req := withDefaultMaxTokens (withDefaultTemperature (withDefaultModel req))
      match callOpenAI messages req with
      | .error _ => (.httpError 50003, st₂)
      | .ok aiResponse =>
        let reply := aiResponse.firstContent
        let r₃ := saveAIMessage st₂ conversation.id uid reply req.model
          aiResponse.usage.totalTokens
        let aiMessage := r₃.1
        let st₃ := updateConversation r₃.2 conversation reply
        let r₄ :=
          if cfg.autoTTS then
            match ttsAudioURL with
            | some url => (url, setMessageAudioURL st₃ aiMessage.id url)
            | none => ("", st₃)
          else ("", st₃)
        let suggestions := generateSuggestions reply
        let st₅ := recordChatUsage r₄.2 uid req aiResponse
        (.ok { reply := reply, conversationID := conversation.id, audioURL := r₄.1,
               suggestions := suggestions,
               tokensUsed := aiResponse.usage.totalTokens, model := req.model }, st₅)

/-- Go `processChatMessage` (the per-frame worker of the WebSocket handler):
conversation resolution, user-turn persistence, context construction, model
and temperature defaults, generation call, assistant-turn persistence,
conversation-summary update, response. There is no length validation and no
usage recording in the source. -/
def processChatMessage (callOpenAI : GenerationCollaborator) (st : ChatState)
    (uid : Nat) (req : ChatRequest) : Except Unit ChatResponse × ChatState :=
  let r₁ := getOrCreateConversation st uid req.conversationID
  let conversation := r₁.1
  let r₂ := saveUserMessage r₁.2 conversation.id uid req.message
  let st₂ := r₂.2
  let messages := getConversationMessages st₂ conversation.id
  let req := withDefaultTemperature (withDefaultModel req)
  match callOpenAI messages req with
  | .error e => (.error e, st₂)
  | .ok aiResponse =>
    let reply := aiResponse.firstContent
    let r₃ := saveAIMessage st₂ conversation.id uid reply req.model
      aiResponse.usage.totalTokens
    let st₃ := updateConversation r₃.2 conversation reply
    (.ok { reply := reply, conversationID := conversation.id,
           tokensUsed := aiResponse.usage.totalTokens, model := req.model }, st₃)

/-- One event on the push-stream (SSE) wire. -/
inductive StreamEvent where
  | chunk (content : String) (index : Nat)
  | done (conversationID : Nat)
  | sseError (message : String)
  deriving DecidableEq, Repr

/-- The fixed fragment list the mock streaming provider produces. -/
def streamResponseChunks : List String :=
  ["这是", "AI的", "流式", "回复。", "我理解了", "您的问题，", "让我为您", "详细解答..."]

/-- Go `callOpenAIStream`: emit one chunk event per fragment, a terminal done
event, persist the assembled assistant turn (token count hard-coded to 50 in
the source) and update the conversation summary. No usage row is written. -/
def callOpenAIStream (st : ChatState) (req : ChatRequest)
    (conversation : Conversation) (uid : Nat) : List StreamEvent × ChatState :=
  let events := streamResponseChunks.enum.map (fun p => StreamEvent.chunk p.2 p.1)
  let fullResponse := String.join streamResponseChunks
  let r := saveAIMessage st conversation.id uid fullResponse req.model 50
  let st' := updateConversation r.2 conversation fullResponse
  (events ++ [StreamEvent.done conversation.id], st')

/-- Go `StreamChatMessage` (the push-stream HTTP handler): authentication
check, conversation resolution, user-turn persistence, context construction,
model and temperature defaults, streaming generation. There is no length
validation in the source; an unauthenticated request produces no events and
no state change. -/
def StreamChatMessage (st : ChatState) (userID : Option Nat) (req : ChatRequest) :
    List StreamEvent × ChatState :=
  match userID with
  | none => ([], st)
  | some uid =>
    let r₁ := getOrCreateConversation st uid req.conversationID
    let conversation := r₁.1
    let r₂ := saveUserMessage r₁.2 conversation.id uid req.message
    let st₂ := r₂.2
    let _messages := getConversationMessages st₂ conversation.id
    let req := withDefaultTemperature (withDefaultModel req)
    callOpenAIStream st₂ req conversation uid

/-! ## Concrete stores and collaborators used in the concrete theorems -/

/-- An empty persistence store. -/
def emptyState : ChatState :=
  { convs := [], messages := [], usages := [], nextConvID := 1, nextMsgID := 1 }

/-- Store holding one conversation with twenty-one persisted user messages
whose contents are the decimal numerals 0 through 20 in creation order. -/
def overflowState : ChatState :=
  { convs := [{ id := 1, userID := 1, title := "新对话", status := "active",
                model := "gpt-3.5-turbo", temperature := 7/10 }],
    messages := (List.range 21).map (fun i =>
      { id := i + 1, userID := 1, conversationID := 1, type := "user",
        content := toString i, contentType := "text", status := "sent" }),
    usages := [], nextConvID := 2, nextMsgID := 22 }

/-- Store holding one conversation whose message sequence is a completed
user/assistant pair. -/
def pairState : ChatState :=
  { convs := [{ id := 1, userID := 1, title := "新对话", status := "active",
                model := "gpt-3.5-turbo", temperature := 7/10 }],
    messages :=
      [{ id := 1, userID := 1, conversationID := 1, type := "user",
         content := "hi", contentType := "text", status := "sent" },
       { id := 2, userID := 1, conversationID := 1, type := "ai",
         content := "yo", contentType := "text", status := "sent" }],
    usages := [], nextConvID := 2, nextMsgID := 3 }

/-- Store holding one conversation with id 5 owned by user 2 and nothing
else. -/
def foreignState : ChatState :=
  { convs := [{ id := 5, userID := 2, title := "新对话", status := "active",
                model := "gpt-3.5-turbo", temperature := 7/10 }],
    messages := [], usages := [], nextConvID := 6, nextMsgID := 1 }

/-- A fixed successful provider response with one assistant choice and a
total of 60 tokens. -/
def mockResponse : OpenAIResponse :=
  { model := "gpt-3.5-turbo",
    choices := [{ index := 0, role := "assistant",
                  content := "这是AI的回复。", finishReason := "stop" }],
    usage := { promptTokens := 10, completionTokens := 50, totalTokens := 60 } }

/-- A generation collaborator that always succeeds with `mockResponse`. -/
def okGen : GenerationCollaborator := fun _ _ => .ok mockResponse

/-- A generation collaborator that always fails (timeout, quota or transport
error). -/
def failGen : GenerationCollaborator := fun _ _ => .error ()

deriving instance DecidableEq for Except

/-! ## Rate limiter lemmas -/

/-- A call whose elapsed time is below one refill interval adds no tokens;
the bucket only answers from its current count. -/
theorem Allow_no_refill (tok maxTok : Int) (R t₀ now : Nat)
    (h : (now - t₀) / R = 0) :
    RateLimiter.Allow
      { tokens := tok, maxTokens := maxTok, refillRate := R, lastRefill := t₀ } now =
      if tok > 0 then
        (true, { tokens := tok - 1, maxTokens := maxTok,
                 refillRate := R, lastRefill := t₀ })
      else
        (false, { tokens := tok, maxTokens := maxTok,
                  refillRate := R, lastRefill := t₀ }) := by
  simp [RateLimiter.Allow, h]

/-- Inside one refill window no tokens are added: a run of `Allow` calls at
instants in `[t₀, t₀ + R)` against a bucket holding `k` tokens grants the
first `k` calls and refuses the rest, leaving the last-refill instant
untouched. -/
theorem allowCalls_window (maxTok : Int) (R t₀ : Nat) (ts : List Nat) (k : Nat)
    (hts : ∀ t ∈ ts, t₀ ≤ t ∧ t < t₀ + R) :
    allowCalls { tokens := (k : Int), maxTokens := maxTok,
                 refillRate := R, lastRefill := t₀ } ts =
      (List.replicate (min ts.length k) true ++ List.replicate (ts.length - k) false,
       { tokens := ((k - ts.length : Nat) : Int), maxTokens := maxTok,
         refillRate := R, lastRefill := t₀ }) := by
  induction ts generalizing k with
  | nil => simp [allowCalls]
  | cons t rest ih =>
    obtain ⟨ht₁, ht₂⟩ := hts t (List.mem_cons_self t rest)
    have hlt : t - t₀ < R := by omega
    have hdiv : (t - t₀) / R = 0 := Nat.div_eq_of_lt hlt
    have hrest : ∀ t' ∈ rest, t₀ ≤ t' ∧ t' < t₀ + R :=
      fun t' ht' => hts t' (List.mem_cons_of_mem _ ht')
    have hstep : RateLimiter.Allow
        { tokens := (k : Int), maxTokens := maxTok,
          refillRate := R, lastRefill := t₀ } t =
        (decide (0 < k),
         { tokens := ((k - 1 : Nat) : Int), maxTokens := maxTok,
           refillRate := R, lastRefill := t₀ }) := by
      rw [Allow_no_refill (k : Int) maxTok R t₀ t hdiv]
      by_cases hk : 0 < k
      · rw [if_pos (by exact_mod_cast hk)]
        have h₁ : decide (0 < k) = true := by simp [hk]
        have h₂ : ((k - 1 : Nat) : Int) = (k : Int) - 1 := by omega
        rw [h₁, h₂]
      · have hk0 : k = 0 := by omega
        subst hk0
        rw [if_neg (by norm_num)]
        simp
    simp only [allowCalls, hstep]
    rw [ih (k - 1) hrest]
    cases k with
    | zero => simp [List.replicate_succ]
    | succ j =>
      simp [Nat.succ_min_succ, List.replicate_succ, Nat.succ_sub_succ,
        Nat.succ_sub_one]

/-- A call one full refill interval after the last refill of an empty bucket
with positive capacity is granted, consuming the single refilled token and
moving the last-refill instant to the call instant. -/
theorem Allow_refill_one (maxTok : Int) (R t₀ u : Nat) (hR : 0 < R)
    (hmax : 1 ≤ maxTok) (hu₁ : t₀ + R ≤ u) (hu₂ : u < t₀ + 2 * R) :
    RateLimiter.Allow
      { tokens := (0 : Int), maxTokens := maxTok, refillRate := R, lastRefill := t₀ } u =
      (true, { tokens := (0 : Int), maxTokens := maxTok,
               refillRate := R, lastRefill := u }) := by
  have h₁ : 1 ≤ (u - t₀) / R := (Nat.le_div_iff_mul_le hR).2 (by omega)
  have h₂ : (u - t₀) / R < 2 := (Nat.div_lt_iff_lt_mul hR).2 (by omega)
  have hdiv : (u - t₀) / R = 1 := by omega
  have hm1 : maxTok ⊓ 1 = 1 := min_eq_right hmax
  have hmaxpos : (0 : Int) < maxTok := by omega
  simp [RateLimiter.Allow, hdiv, hmaxpos, hm1]

/-- A second call at the very instant of the last refill of an empty bucket is
refused and leaves the bucket unchanged. -/
theorem Allow_empty_same_instant (maxTok : Int) (R u : Nat) :
    RateLimiter.Allow
      { tokens := (0 : Int), maxTokens := maxTok, refillRate := R, lastRefill := u } u =
      (false, { tokens := (0 : Int), maxTokens := maxTok,
                refillRate := R, lastRefill := u }) := by
  simp [RateLimiter.Allow]

/-- Claim C4: each `Allow` call refills `floor(elapsed/R)` tokens capped at
the capacity, then grants the request consuming exactly one token when one is
available and refuses it without further mutation otherwise; consequently a
fresh bucket of capacity `C` grants exactly the first `C` of `C + 1` requests
issued within one refill window `R`, refuses the `(C+1)`-th, and after
waiting one further interval `R` grants exactly one more request. -/
theorem rateLimiter_allow_spec (C R t₀ : Nat) (hC : 0 < C) (hR : 0 < R)
    (ts : List Nat) (hlen : ts.length = C + 1)
    (hts : ∀ t ∈ ts, t₀ ≤ t ∧ t < t₀ + R)
    (u : Nat) (hu₁ : t₀ + R ≤ u) (hu₂ : u < t₀ + 2 * R) :
    (∀ (rl : RateLimiter) (now : Nat), 0 ≤ rl.tokens → rl.tokens ≤ rl.maxTokens →
      (rl.Allow now).1 =
        decide (0 < min rl.maxTokens
          (rl.tokens + (((now - rl.lastRefill) / rl.refillRate : Nat) : Int))) ∧
      (rl.Allow now).2.tokens =
        (if 0 < min rl.maxTokens
            (rl.tokens + (((now - rl.lastRefill) / rl.refillRate : Nat) : Int)) then
          min rl.maxTokens
            (rl.tokens + (((now - rl.lastRefill) / rl.refillRate : Nat) : Int)) - 1
        else
          min rl.maxTokens
            (rl.tokens + (((now - rl.lastRefill) / rl.refillRate : Nat) : Int)))) ∧
    (allowCalls (NewRateLimiter (C : Int) R t₀) ts).1 =
      List.replicate C true ++ [false] ∧
    ((allowCalls (NewRateLimiter (C : Int) R t₀) ts).2.Allow u).1 = true ∧
    (((allowCalls (NewRateLimiter (C : Int) R t₀) ts).2.Allow u).2.Allow u).1 = false := by
  refine ⟨?_, ?_⟩
  · intro rl now h₀ h₁
    set add : Int := (((now - rl.lastRefill) / rl.refillRate : Nat) : Int) with hadd
    have haddnn : 0 ≤ add := Int.natCast_nonneg _
    by_cases hpos : add > 0
    · simp only [RateLimiter.Allow, ← hadd, if_pos hpos]
      by_cases htok : 0 < min rl.maxTokens (rl.tokens + add)
      · simp [htok]
      · simp [htok]
    · have hz : add = 0 := by omega
      have hmin : min rl.maxTokens (rl.tokens + add) = rl.tokens := by
        rw [hz, add_zero]
        exact min_eq_right h₁
      simp only [RateLimiter.Allow, ← hadd, if_neg hpos, hmin]
      by_cases htok : 0 < rl.tokens
      · simp [htok]
      · simp [htok]
  · have hrun := allowCalls_window (C : Int) R t₀ ts C hts
    have hrl : NewRateLimiter (C : Int) R t₀ =
        { tokens := (C : Int), maxTokens := (C : Int),
          refillRate := R, lastRefill := t₀ } := rfl
    rw [hrl, hrun, hlen]
    have hmin : min (C + 1) C = C := min_eq_right (by omega)
    have hsub : C + 1 - C = 1 := by omega
    have hfin : ((C - (C + 1) : Nat) : Int) = (0 : Int) := by
      have : C - (C + 1) = 0 := by omega
      rw [this]; rfl
    rw [hmin, hsub, hfin]
    have hone : (1 : Int) ≤ (C : Int) := by exact_mod_cast hC
    refine ⟨rfl, ?_, ?_⟩
    · rw [Allow_refill_one (C : Int) R t₀ u hR hone hu₁ hu₂]
    · rw [Allow_refill_one (C : Int) R t₀ u hR hone hu₁ hu₂,
        Allow_empty_same_instant]

/-- Concrete instantiation of the bucket scenario: capacity 2, refill
interval 5, three calls inside the window, one more after a full interval. -/
theorem rateLimiter_allow_spec_witness :
    (∀ (rl : RateLimiter) (now : Nat), 0 ≤ rl.tokens → rl.tokens ≤ rl.maxTokens →
      (rl.Allow now).1 =
        decide (0 < min rl.maxTokens
          (rl.tokens + (((now - rl.lastRefill) / rl.refillRate : Nat) : Int))) ∧
      (rl.Allow now).2.tokens =
        (if 0 < min rl.maxTokens
            (rl.tokens + (((now - rl.lastRefill) / rl.refillRate : Nat) : Int)) then
          min rl.maxTokens
            (rl.tokens + (((now - rl.lastRefill) / rl.refillRate : Nat) : Int)) - 1
        else
          min rl.maxTokens
            (rl.tokens + (((now - rl.lastRefill) / rl.refillRate : Nat) : Int)))) ∧
    (allowCalls (NewRateLimiter ((2 : Nat) : Int) 5 0) [0, 1, 4]).1 =
      List.replicate 2 true ++ [false] ∧
    ((allowCalls (NewRateLimiter ((2 : Nat) : Int) 5 0) [0, 1, 4]).2.Allow 5).1 = true ∧
    (((allowCalls (NewRateLimiter ((2 : Nat) : Int) 5 0) [0, 1, 4]).2.Allow 5).2.Allow 5).1
      = false :=
  rateLimiter_allow_spec 2 5 0 (by decide) (by decide) [0, 1, 4] (by decide)
    (by decide) 5 (by decide) (by decide)

/-- One `Allow` call keeps the token count within `[0, maxTokens]` and does
not change the capacity. -/
theorem Allow_preserves_invariant (rl : RateLimiter) (now : Nat)
    (h₀ : 0 ≤ rl.tokens) (h₁ : rl.tokens ≤ rl.maxTokens) :
    0 ≤ (rl.Allow now).2.tokens ∧
    (rl.Allow now).2.tokens ≤ (rl.Allow now).2.maxTokens ∧
    (rl.Allow now).2.maxTokens = rl.maxTokens := by
  have hmax : 0 ≤ rl.maxTokens := le_trans h₀ h₁
  set add : Int := (((now - rl.lastRefill) / rl.refillRate : Nat) : Int) with hadd
  have haddnn : 0 ≤ add := Int.natCast_nonneg _
  simp only [RateLimiter.Allow, ← hadd]
  by_cases hpos : add > 0
  · have hminlb : 0 ≤ min rl.maxTokens (rl.tokens + add) :=
      le_min hmax (by omega)
    have hminub : min rl.maxTokens (rl.tokens + add) ≤ rl.maxTokens := min_le_left _ _
    simp only [if_pos hpos]
    by_cases htok : min rl.maxTokens (rl.tokens + add) > 0
    · simp [htok]; omega
    · simp [htok]; omega
  · simp only [if_neg hpos]
    by_cases htok : rl.tokens > 0
    · simp [htok]; omega
    · simp [htok]; omega

/-- A run of `Allow` calls keeps the token count within `[0, maxTokens]` and
does not change the capacity. -/
theorem allowCalls_preserves_invariant (ts : List Nat) :
    ∀ (rl : RateLimiter), 0 ≤ rl.tokens → rl.tokens ≤ rl.maxTokens →
      0 ≤ (allowCalls rl ts).2.tokens ∧
      (allowCalls rl ts).2.tokens ≤ (allowCalls rl ts).2.maxTokens ∧
      (allowCalls rl ts).2.maxTokens = rl.maxTokens := by
  induction ts with
  | nil => intro rl h₀ h₁; exact ⟨h₀, h₁, rfl⟩
  | cons t rest ih =>
    intro rl h₀ h₁
    obtain ⟨g₀, g₁, g₂⟩ := Allow_preserves_invariant rl t h₀ h₁
    obtain ⟨f₀, f₁, f₂⟩ := ih (rl.Allow t).2 g₀ (by omega)
    refine ⟨?_, ?_, ?_⟩ <;> simp only [allowCalls] <;> omega

/-- Claim C10: a bucket created by `NewRateLimiter` with non-negative
capacity keeps `0 ≤ tokens ≤ maxTokens` after every sequence of `Allow`
calls — the bucket never goes negative and refilling never overshoots the
capacity. -/
theorem rateLimiter_tokens_invariant (maxTokens : Int) (R t₀ : Nat)
    (hmax : 0 ≤ maxTokens) (ts : List Nat) :
    0 ≤ (allowCalls (NewRateLimiter maxTokens R t₀) ts).2.tokens ∧
    (allowCalls (NewRateLimiter maxTokens R t₀) ts).2.tokens ≤ maxTokens := by
  obtain ⟨h₀, h₁, h₂⟩ :=
    allowCalls_preserves_invariant ts (NewRateLimiter maxTokens R t₀) hmax le_rfl
  rw [h₂] at h₁
  exact ⟨h₀, h₁⟩

/-- Concrete instantiation of the token-count invariant: capacity 2, refill
interval 5, calls at instants 0, 7 and 7. -/
theorem rateLimiter_tokens_invariant_witness :
    0 ≤ (allowCalls (NewRateLimiter 2 5 0) [0, 7, 7]).2.tokens ∧
    (allowCalls (NewRateLimiter 2 5 0) [0, 7, 7]).2.tokens ≤ 2 :=
  rateLimiter_tokens_invariant 2 5 0 (by decide) [0, 7, 7]

/-- Claim C5 counterexample: the expensive-operation policy created with 60
requests per minute has a refill interval of exactly one second, yet its
rejection body hard-codes a retry-after of 60 seconds — the full window, not
one refill interval as the claim states. -/
theorem expensiveOperation_retryAfter_counterexample :
    expensiveOperationRefillInterval 60 = 1000000000 ∧
    (expensiveOperationRejection 60).retryAfter = 60 ∧
    (expensiveOperationRejection 60).retryAfter ≠
      expensiveOperationRefillInterval 60 / 1000000000 := by
  refine ⟨rfl, rfl, ?_⟩
  decide

/-- Claim C5 as amended: every rejecting policy reports its full window as
the retry-after hint — 60 seconds for the expensive-operation and API
limiters, 3600 seconds for the per-user hourly limiter, and the configured
window (in seconds) for the coarse policy; no policy reports a single refill
interval. -/
theorem rateLimit_rejection_full_window (n : Nat) (cfg : RateLimitConfig) :
    (expensiveOperationRejection n).retryAfter = 60 ∧
    (apiRateLimitRejection n).retryAfter = 60 ∧
    (userRateLimitRejection n).retryAfter = 3600 ∧
    (rateLimitRejection cfg).retryAfter = cfg.windowDuration / 1000000000 :=
  ⟨rfl, rfl, rfl, rfl⟩

/-! ## Chat pipeline lemmas -/

/-- Conversation resolution never touches messages, usage rows or the message
id counter. -/
theorem getOrCreateConversation_preserves (st : ChatState) (uid : Nat)
    (conversationID : Option Nat) :
    (getOrCreateConversation st uid conversationID).2.messages = st.messages ∧
    (getOrCreateConversation st uid conversationID).2.usages = st.usages ∧
    (getOrCreateConversation st uid conversationID).2.nextMsgID = st.nextMsgID := by
  cases conversationID with
  | none => exact ⟨rfl, rfl, rfl⟩
  | some cid =>
    cases h : st.convs.find? (fun c => c.id == cid && c.userID == uid) with
    | none => simp [getOrCreateConversation, createConversation, h]
    | some c => simp [getOrCreateConversation, h]

/-- The projection loop of `getConversationMessages` is the composite of a
role filter and a role/content map. -/
theorem filterMap_msgToOpenAI (l : List Message) :
    l.filterMap msgToOpenAI =
      (l.filter (fun m => m.type == "user" || m.type == "ai")).map
        (fun m => { role := if m.type == "ai" then "assistant" else "user",
                    content := m.content }) := by
  induction l with
  | nil => rfl
  | cons a l ih =>
    by_cases h : (a.type == "user" || a.type == "ai") = true
    · simp [List.filterMap_cons, List.filter_cons, msgToOpenAI, h, ih]
    · simp [List.filterMap_cons, List.filter_cons, msgToOpenAI, h, ih]

/-- Claim C1 (code bug in the window selection): on a conversation holding
twenty-one messages numbered 0..20 in creation order, the source query
`ORDER BY created_at ASC LIMIT 20` returns the oldest twenty (0..19), while
the claim — and the source comment naming the last twenty messages — demand
the most recent twenty (1..20); the two windows differ. -/
theorem getConversationMessages_oldest_window :
    getConversationMessages overflowState 1 =
      (List.range 20).map (fun i => { role := "user", content := toString i }) ∧
    getConversationMessagesPerSpec overflowState 1 =
      (List.range 20).map (fun i => { role := "user", content := toString (i + 1) }) ∧
    getConversationMessages overflowState 1 ≠
      getConversationMessagesPerSpec overflowState 1 := by
  refine ⟨?_, ?_, ?_⟩ <;> decide

/-- Claim C2 counterexample: on a stored sequence that is a completed
user/assistant pair, the Context Window Builder returns a non-empty list whose
last element has role assistant. -/
theorem getConversationMessages_ends_on_assistant :
    getConversationMessages pairState 1 =
      [{ role := "user", content := "hi" }, { role := "assistant", content := "yo" }] ∧
    (getConversationMessages pairState 1).getLast? =
      some { role := "assistant", content := "yo" } := by
  refine ⟨?_, ?_⟩ <;> decide

/-- Claim C2 as amended: the last element of the list returned by the Context
Window Builder is exactly the role/content projection of the last user- or
ai-typed message among the first twenty stored messages of the conversation —
in particular the list ends on role assistant precisely when that message has
type ai, so an assistant tail is possible. -/
theorem getConversationMessages_getLast_characterization (st : ChatState)
    (conversationID : Nat) :
    (getConversationMessages st conversationID).getLast? =
      (((st.messages.filter (fun m => m.conversationID == conversationID)).take 20).filter
          (fun m => m.type == "user" || m.type == "ai")).getLast?.map
        (fun m => { role := if m.type == "ai" then "assistant" else "user",
                    content := m.content }) := by
  unfold getConversationMessages
  rw [filterMap_msgToOpenAI]
  exact List.getLast?_map _ _

/-- Claim C3 counterexample: with conversation 5 owned by user 2 and user 1
supplying id 5, conversation resolution does not fail — it creates and
returns a brand-new conversation (fresh id 6) owned by user 1, growing the
store to two conversations. -/
theorem getOrCreateConversation_foreign_id_creates :
    (getOrCreateConversation foreignState 1 (some 5)).2.convs.length = 2 ∧
    (getOrCreateConversation foreignState 1 (some 5)).1 =
      { id := 6, userID := 1, title := "新对话", status := "active",
        model := "gpt-3.5-turbo", temperature := 7/10 } := by
  refine ⟨by decide, by rfl⟩

/-- Claim C3 as amended: when the supplied conversation id matches no
conversation owned by the caller (absent id or foreign owner), resolution
does not fail with NotFound — it creates a fresh conversation owned by the
caller with the default parameters and appends it to the store. -/
theorem getOrCreateConversation_miss_creates (st : ChatState) (uid cid : Nat)
    (h : st.convs.find? (fun c => c.id == cid && c.userID == uid) = none) :
    (getOrCreateConversation st uid (some cid)).1 =
      { id := st.nextConvID, userID := uid, title := "新对话", status := "active",
        model := "gpt-3.5-turbo", temperature := 7/10 } ∧
    (getOrCreateConversation st uid (some cid)).2 =
      { st with
        convs := st.convs ++
          [{ id := st.nextConvID, userID := uid, title := "新对话",
             status := "active", model := "gpt-3.5-turbo", temperature := 7/10 }],
        nextConvID := st.nextConvID + 1 } := by
  simp only [getOrCreateConversation, h]
  exact ⟨rfl, rfl⟩

/-- Concrete instantiation of the amended resolution behavior on the empty
store with a dangling conversation id. -/
theorem getOrCreateConversation_miss_creates_witness :
    (getOrCreateConversation emptyState 1 (some 5)).1 =
      { id := emptyState.nextConvID, userID := 1, title := "新对话",
        status := "active", model := "gpt-3.5-turbo", temperature := 7/10 } ∧
    (getOrCreateConversation emptyState 1 (some 5)).2 =
      { emptyState with
        convs := emptyState.convs ++
          [{ id := emptyState.nextConvID, userID := 1, title := "新对话",
             status := "active", model := "gpt-3.5-turbo", temperature := 7/10 }],
        nextConvID := emptyState.nextConvID + 1 } :=
  getOrCreateConversation_miss_creates emptyState 1 5 (by decide)

/-- The WebSocket frame worker persists the user turn first and touches no
usage rows: its final store extends the initial one with the user message
followed by some tail (empty on provider failure, the assistant message on
success). -/
theorem processChatMessage_state (callOpenAI : GenerationCollaborator)
    (st : ChatState) (uid : Nat) (req : ChatRequest) :
    (∃ tail,
      (processChatMessage callOpenAI st uid req).2.messages =
        st.messages ++
          ({ id := st.nextMsgID, userID := uid,
             conversationID := (getOrCreateConversation st uid req.conversationID).1.id,
             type := "user", content := req.message, contentType := "text",
             status := "sent" } :: tail)) ∧
    (processChatMessage callOpenAI st uid req).2.usages = st.usages := by
  obtain ⟨hm, hu, hn⟩ := getOrCreateConversation_preserves st uid req.conversationID
  simp only [processChatMessage]
  split
  · exact ⟨⟨[], by simp [saveUserMessage, hm, hn]⟩, by simp [saveUserMessage, hu]⟩
  · rename_i aiResponse heq
    refine ⟨⟨[({ id := st.nextMsgID + 1, userID := uid, conversationID := (getOrCreateConversation st uid req.conversationID).1.id, type := "ai", content := aiResponse.firstContent, contentType := "text", status := "sent", model := (withDefaultTemperature (withDefaultModel req)).model, tokensUsed := aiResponse.usage.totalTokens } : Message)], ?_⟩, ?_⟩
    · simp [saveUserMessage, saveAIMessage, updateConversation, hm, hn,
        List.append_assoc]
    · simp [saveUserMessage, saveAIMessage, updateConversation, hu]

/-- The push-stream handler persists exactly the user turn and the assembled
assistant turn (the fixed mock fragments, token count 50) and touches no
usage rows. -/
theorem StreamChatMessage_state (st : ChatState) (uid : Nat) (req : ChatRequest) :
    (StreamChatMessage st (some uid) req).2.messages =
      st.messages ++
        [{ id := st.nextMsgID, userID := uid,
           conversationID := (getOrCreateConversation st uid req.conversationID).1.id,
           type := "user", content := req.message, contentType := "text",
           status := "sent" },
         { id := st.nextMsgID + 1, userID := uid,
           conversationID := (getOrCreateConversation st uid req.conversationID).1.id,
           type := "ai", content := String.join streamResponseChunks,
           contentType := "text", status := "sent",
           model := (withDefaultTemperature (withDefaultModel req)).model,
           tokensUsed := 50 }] ∧
    (StreamChatMessage st (some uid) req).2.usages = st.usages := by
  obtain ⟨hm, hu, hn⟩ := getOrCreateConversation_preserves st uid req.conversationID
  constructor
  · simp [StreamChatMessage, callOpenAIStream, saveUserMessage, saveAIMessage,
      updateConversation, hm, hn, List.append_assoc]
  · simp [StreamChatMessage, callOpenAIStream, saveUserMessage, saveAIMessage,
      updateConversation, hu]

/-- Claim C6: when the generation collaborator fails (timeout included), the
single-shot exchange returns the provider-failure error 50003, the persisted
user turn remains stored with status sent, no usage row is written and no
assistant (ai-typed) message is added. -/
theorem SendChatMessage_provider_failure (cfg : AIConfig)
    (callOpenAI : GenerationCollaborator) (ttsAudioURL : Option String)
    (st : ChatState) (uid : Nat) (req : ChatRequest)
    (hlen : ¬ req.message.utf8ByteSize > cfg.maxMessageLength)
    (hgen : ∀ msgs r, callOpenAI msgs r = .error ()) :
    SendChatMessage cfg callOpenAI ttsAudioURL st (some uid) req =
      (ChatOutcome.httpError 50003,
       { (getOrCreateConversation st uid req.conversationID).2 with
         messages := st.messages ++
           [{ id := st.nextMsgID, userID := uid,
              conversationID := (getOrCreateConversation st uid req.conversationID).1.id,
              type := "user", content := req.message, contentType := "text",
              status := "sent" }],
         nextMsgID := st.nextMsgID + 1 }) ∧
    (SendChatMessage cfg callOpenAI ttsAudioURL st (some uid) req).2.usages =
      st.usages ∧
    ∀ m ∈ (SendChatMessage cfg callOpenAI ttsAudioURL st (some uid) req).2.messages,
      m.type = "ai" → m ∈ st.messages := by
  obtain ⟨hm, hu, hn⟩ := getOrCreateConversation_preserves st uid req.conversationID
  have hmain : SendChatMessage cfg callOpenAI ttsAudioURL st (some uid) req =
      (ChatOutcome.httpError 50003,
       { (getOrCreateConversation st uid req.conversationID).2 with
         messages := st.messages ++
           [{ id := st.nextMsgID, userID := uid,
              conversationID := (getOrCreateConversation st uid req.conversationID).1.id,
              type := "user", content := req.message, contentType := "text",
              status := "sent" }],
         nextMsgID := st.nextMsgID + 1 }) := by
    simp only [SendChatMessage, if_neg hlen, hgen, saveUserMessage]
    rw [hm, hn]
  refine ⟨hmain, ?_, ?_⟩
  · rw [hmain]
    exact hu
  · intro m hmem hty
    rw [hmain] at hmem
    rcases List.mem_append.1 hmem with h | h
    · exact h
    · rcases List.mem_singleton.1 h with rfl
      simp at hty

/-- Concrete instantiation of the provider-failure behavior on the empty
store with an always-failing collaborator. -/
theorem SendChatMessage_provider_failure_witness :
    SendChatMessage { maxMessageLength := 1000, autoTTS := false } failGen none
        emptyState (some 1) { message := "hi", conversationID := none } =
      (ChatOutcome.httpError 50003,
       { (getOrCreateConversation emptyState 1 none).2 with
         messages := emptyState.messages ++
           [{ id := emptyState.nextMsgID, userID := 1,
              conversationID := (getOrCreateConversation emptyState 1 none).1.id,
              type := "user", content := "hi", contentType := "text",
              status := "sent" }],
         nextMsgID := emptyState.nextMsgID + 1 }) ∧
    (SendChatMessage { maxMessageLength := 1000, autoTTS := false } failGen none
        emptyState (some 1) { message := "hi", conversationID := none }).2.usages =
      emptyState.usages ∧
    ∀ m ∈ (SendChatMessage { maxMessageLength := 1000, autoTTS := false } failGen none
        emptyState (some 1) { message := "hi", conversationID := none }).2.messages,
      m.type = "ai" → m ∈ emptyState.messages :=
  SendChatMessage_provider_failure { maxMessageLength := 1000, autoTTS := false }
    failGen none emptyState 1 { message := "hi", conversationID := none }
    (by decide) (fun _ _ => rfl)

/-- Claim C7 counterexample: with a configured maximum of 3 bytes, the
five-byte frame "hello" arriving on the WebSocket path is neither rejected
nor left unpersisted — the worker persists the user message and completes the
exchange, because `processChatMessage` performs no length validation at
all. -/
theorem websocket_overlength_persisted :
    "hello".utf8ByteSize > 3 ∧
    (processChatMessage okGen emptyState 1
        { message := "hello", conversationID := none }).1 =
      Except.ok { reply := "这是AI的回复。", conversationID := 1, tokensUsed := 60,
                  model := "gpt-3.5-turbo" } ∧
    { id := 1, userID := 1, conversationID := 1, type := "user", content := "hello",
      contentType := "text", status := "sent" } ∈
      (processChatMessage okGen emptyState 1
        { message := "hello", conversationID := none }).2.messages := by
  refine ⟨by decide, by decide, by decide⟩

/-- Claim C7 as amended: only the single-shot HTTP handler validates the
message length against the configured maximum before persisting anything (and
then writes no state); the WebSocket and push-stream handlers perform no
length validation and persist the over-length user message. -/
theorem chat_length_validation_paths (cfg : AIConfig)
    (callOpenAI : GenerationCollaborator) (ttsAudioURL : Option String)
    (st : ChatState) (uid : Nat) (req : ChatRequest)
    (hlen : req.message.utf8ByteSize > cfg.maxMessageLength) :
    SendChatMessage cfg callOpenAI ttsAudioURL st (some uid) req =
      (ChatOutcome.httpError 40001, st) ∧
    { id := st.nextMsgID, userID := uid,
      conversationID := (getOrCreateConversation st uid req.conversationID).1.id,
      type := "user", content := req.message, contentType := "text",
      status := "sent" } ∈
      (processChatMessage callOpenAI st uid req).2.messages ∧
    { id := st.nextMsgID, userID := uid,
      conversationID := (getOrCreateConversation st uid req.conversationID).1.id,
      type := "user", content := req.message, contentType := "text",
      status := "sent" } ∈
      (StreamChatMessage st (some uid) req).2.messages := by
  refine ⟨?_, ?_, ?_⟩
  · simp only [SendChatMessage, if_pos hlen]
  · obtain ⟨⟨tail, htail⟩, -⟩ := processChatMessage_state callOpenAI st uid req
    rw [htail]
    exact List.mem_append.2 (Or.inr (List.mem_cons_self _ _))
  · obtain ⟨hmsg, -⟩ := StreamChatMessage_state st uid req
    rw [hmsg]
    exact List.mem_append.2 (Or.inr (List.mem_cons_self _ _))

/-- Concrete instantiation of the per-path validation behavior: maximum 3,
message "hello". -/
theorem chat_length_validation_paths_witness :
    SendChatMessage { maxMessageLength := 3, autoTTS := false } okGen none emptyState
        (some 1) { message := "hello", conversationID := none } =
      (ChatOutcome.httpError 40001, emptyState) ∧
    { id := emptyState.nextMsgID, userID := 1,
      conversationID := (getOrCreateConversation emptyState 1 none).1.id,
      type := "user", content := "hello", contentType := "text", status := "sent" } ∈
      (processChatMessage okGen emptyState 1
        { message := "hello", conversationID := none }).2.messages ∧
    { id := emptyState.nextMsgID, userID := 1,
      conversationID := (getOrCreateConversation emptyState 1 none).1.id,
      type := "user", content := "hello", contentType := "text", status := "sent" } ∈
      (StreamChatMessage emptyState (some 1)
        { message := "hello", conversationID := none }).2.messages :=
  chat_length_validation_paths { maxMessageLength := 3, autoTTS := false } okGen none
    emptyState 1 { message := "hello", conversationID := none } (by decide)

/-- Claim C8 counterexample: a WebSocket exchange whose provider call
succeeds (60 tokens reported) completes without creating any usage row —
`processChatMessage` never calls `recordChatUsage`. -/
theorem websocket_success_without_usage :
    (processChatMessage okGen emptyState 1
        { message := "hi", conversationID := none }).1 =
      Except.ok { reply := "这是AI的回复。", conversationID := 1, tokensUsed := 60,
                  model := "gpt-3.5-turbo" } ∧
    (processChatMessage okGen emptyState 1
        { message := "hi", conversationID := none }).2.usages = [] := by
  refine ⟨by decide, by decide⟩

/-- Claim C8 as amended: after a successful provider call, exactly one usage
row (service openai, operation chat, the provider-reported total tokens,
request count 1) is appended on the single-shot HTTP path only; the WebSocket
and push-stream paths create no usage row. -/
theorem chat_usage_paths (cfg : AIConfig) (callOpenAI : GenerationCollaborator)
    (ttsAudioURL : Option String) (st : ChatState) (uid : Nat) (req : ChatRequest)
    (resp : OpenAIResponse)
    (hlen : ¬ req.message.utf8ByteSize > cfg.maxMessageLength)
    (hgen : ∀ msgs r, callOpenAI msgs r = .ok resp) :
    (SendChatMessage cfg callOpenAI ttsAudioURL st (some uid) req).2.usages =
      st.usages ++
        [{ userID := uid, service := "openai", operation := "chat",
           model := (withDefaultMaxTokens (withDefaultTemperature
             (withDefaultModel req))).model,
           tokensUsed := resp.usage.totalTokens, requests := 1 }] ∧
    (processChatMessage callOpenAI st uid req).2.usages = st.usages ∧
    (StreamChatMessage st (some uid) req).2.usages = st.usages := by
  obtain ⟨hm, hu, hn⟩ := getOrCreateConversation_preserves st uid req.conversationID
  refine ⟨?_, (processChatMessage_state callOpenAI st uid req).2,
    (StreamChatMessage_state st uid req).2⟩
  simp only [SendChatMessage, if_neg hlen, hgen]
  by_cases hat : cfg.autoTTS
  · cases ttsAudioURL with
    | none =>
      simp [hat, recordChatUsage, setMessageAudioURL, updateConversation,
        saveAIMessage, saveUserMessage, hu]
    | some url =>
      simp [hat, recordChatUsage, setMessageAudioURL, updateConversation,
        saveAIMessage, saveUserMessage, hu]
  · simp [hat, recordChatUsage, setMessageAudioURL, updateConversation,
      saveAIMessage, saveUserMessage, hu]

/-- Concrete instantiation of the per-path usage recording: empty store,
always-succeeding collaborator reporting 60 tokens. -/
theorem chat_usage_paths_witness :
    (SendChatMessage { maxMessageLength := 1000, autoTTS := false } okGen none
        emptyState (some 1) { message := "hi", conversationID := none }).2.usages =
      emptyState.usages ++
        [{ userID := 1, service := "openai", operation := "chat",
           model := (withDefaultMaxTokens (withDefaultTemperature (withDefaultModel
             { message := "hi", conversationID := none }))).model,
           tokensUsed := mockResponse.usage.totalTokens, requests := 1 }] ∧
    (processChatMessage okGen emptyState 1
        { message := "hi", conversationID := none }).2.usages = emptyState.usages ∧
    (StreamChatMessage emptyState (some 1)
        { message := "hi", conversationID := none }).2.usages = emptyState.usages :=
  chat_usage_paths { maxMessageLength := 1000, autoTTS := false } okGen none
    emptyState 1 { message := "hi", conversationID := none } mockResponse
    (by decide) (fun _ _ => rfl)

end VoiceGenie
